import Mathlib

/-
Verification of the Progressive-Note-Taker repository (cookbook/note-taker).
The definitions below are a shallow embedding of the TypeScript source.
External collaborators (LLM backend, WHATWG URL parser, pdf-parse, fetch,
the npm slugify library, node's path.join and the filesystem) are threaded
as an explicit environment record, exactly at the narrow call boundaries
the source uses.  The PocketFlow engine itself is an external npm
dependency (not part of this repository's sources); its node lifecycle,
routing and retry loop are modelled from the spec where noted.
-/

namespace NoteTaker

/-! ### JavaScript string primitives

JavaScript strings are sequences of characters; the primitives the source
uses are modelled over the character list of a Lean string, with
structural recursion so that every operation computes. -/

/-- JavaScript's `trim()`: strip leading and trailing whitespace. -/
def jsTrim (s : String) : String :=
  String.mk (((s.toList.dropWhile Char.isWhitespace).reverse.dropWhile
    Char.isWhitespace).reverse)

/-- JavaScript's `toLowerCase()` (on the characters the source feeds it). -/
def jsToLower (s : String) : String :=
  String.mk (s.toList.map Char.toLower)

/-- JavaScript's `startsWith`. -/
def jsStartsWith (s pre : String) : Bool :=
  pre.toList.isPrefixOf s.toList

/-- JavaScript's `endsWith`. -/
def jsEndsWith (s suf : String) : Bool :=
  suf.toList.isSuffixOf s.toList

/-- Auxiliary splitter: split at every character equal to `sep`. -/
def splitOnCharAux (sep : Char) : List Char → List Char → List String
  | [], acc => [String.mk acc.reverse]
  | c :: rest, acc =>
      if c = sep then String.mk acc.reverse :: splitOnCharAux sep rest []
      else splitOnCharAux sep rest (c :: acc)

/-- JavaScript's `split(sep)` for a one-character separator. -/
def jsSplitOnChar (s : String) (sep : Char) : List String :=
  splitOnCharAux sep s.toList []

/-- Splitting at every whitespace character; it differs from the regex
split on `\s+` only by extra empty fragments, which every use in the
source filters away. -/
def splitWsAux : List Char → List Char → List String
  | [], acc => [String.mk acc.reverse]
  | c :: rest, acc =>
      if c.isWhitespace then String.mk acc.reverse :: splitWsAux rest []
      else splitWsAux rest (c :: acc)

/-- JavaScript's `x || d` for an optional string: `undefined` and the empty
string are falsy, everything else is truthy. -/
def jsOrOpt (o : Option String) (d : String) : String :=
  match o with
  | none => d
  | some s => if s = "" then d else s

/-- JavaScript's `s || d` on a plain string (empty string is falsy). -/
def jsOrStr (s d : String) : String :=
  if s = "" then d else s

/-- JavaScript truthiness of an optional string value
(`undefined` and `""` are falsy). -/
def jsTruthyOpt (o : Option String) : Bool :=
  match o with
  | none => false
  | some s => s ≠ ""

/-- Embedding of `countWords` (src/utils/files.ts and
src/utils/extractors.ts): `text.trim().split(/\s+/).filter(Boolean).length`. -/
def countWords (text : String) : Nat :=
  ((splitWsAux (jsTrim text).toList []).filter (fun w => w ≠ "")).length

/-- The four input types of `InputType` in src/types.ts. -/
inductive InputType
  | text
  | pdf
  | image
  | url
deriving DecidableEq, Repr

/-- The string value of each `InputType` member (TS string-literal union). -/
def InputType.label : InputType → String
  | .text => "text"
  | .pdf => "pdf"
  | .image => "image"
  | .url => "url"

/-! ## Shared state (src/types.ts, interface SharedState) -/

/-- `SharedState.input` of src/types.ts. -/
structure InputConfig where
  raw : String
  type : Option InputType
  focusArea : Option String
  outputFormat : Option String
deriving DecidableEq, Repr

/-- `SharedState.metadata` of src/types.ts. -/
structure SourceMetadata where
  title : String
  author : Option String
  date : Option String
  sourceType : String
  wordCount : Nat
deriving DecidableEq, Repr

/-- `SharedState.content` of src/types.ts. -/
structure ContentState where
  raw : String
  sections : Option (List String)
deriving DecidableEq, Repr

/-- `SharedState.layers` of src/types.ts. -/
structure LayersState where
  layer1 : Option String
  layer2 : Option String
  layer3 : Option String
  layer4 : Option String
  layer5 : Option String
deriving DecidableEq, Repr

/-- `SharedState.output` of src/types.ts. -/
structure OutputConfig where
  directory : String
  timestamp : Option String
  slug : Option String
  savedFiles : List String
deriving DecidableEq, Repr

/-- The shared state threaded through every node (src/types.ts). -/
structure SharedState where
  input : InputConfig
  metadata : SourceMetadata
  content : ContentState
  layers : LayersState
  output : OutputConfig
deriving DecidableEq, Repr

/-- Options argument of `createInitialState` (src/types.ts). -/
structure InitOptions where
  focusArea : Option String
  outputFormat : Option String
  outputDirectory : Option String
deriving DecidableEq, Repr

/-- Embedding of `createInitialState` (src/types.ts). -/
def createInitialState (input : String) (options : Option InitOptions) : SharedState :=
  { input :=
      { raw := input
        type := none
        focusArea := options.bind (fun o => o.focusArea)
        outputFormat := options.bind (fun o => o.outputFormat) }
    metadata := { title := "", author := none, date := none, sourceType := "", wordCount := 0 }
    content := { raw := "", sections := none }
    layers := { layer1 := none, layer2 := none, layer3 := none, layer4 := none, layer5 := none }
    output :=
      { directory := jsOrOpt (options.bind (fun o => o.outputDirectory)) "./data/notes"
        timestamp := none
        slug := none
        savedFiles := [] } }

/-! ## Configuration (src/types.ts) -/

/-- LLM provider union of src/types.ts. -/
inductive LLMProvider
  | openai
  | anthropic
  | ollama
deriving DecidableEq, Repr

/-- `LLMConfig` of src/types.ts (temperature kept as an exact rational). -/
structure LLMConfig where
  provider : LLMProvider
  model : String
  apiKey : Option String
  baseUrl : Option String
  temperature : Option ℚ
  maxTokens : Option Nat
deriving DecidableEq, Repr

/-- `Config.output` of src/types.ts. -/
structure OutputSettings where
  directory : String
deriving DecidableEq, Repr

/-- `Config.processing` of src/types.ts. -/
structure ProcessingSettings where
  maxRetries : Nat
  retryWait : Nat
deriving DecidableEq, Repr

/-- `Config` of src/types.ts. -/
structure Config where
  llm : LLMConfig
  output : OutputSettings
  processing : ProcessingSettings
deriving DecidableEq, Repr

/-- Embedding of `defaultConfig` (src/types.ts). -/
def defaultConfig : Config :=
  { llm :=
      { provider := .openai
        model := "gpt-4o-mini"
        apiKey := none
        baseUrl := none
        temperature := some (7 / 10 : ℚ)
        maxTokens := some 4096 }
    output := { directory := "./data/notes" }
    processing := { maxRetries := 3, retryWait := 2 } }

/-! ## External environment

The source calls a handful of external collaborators.  They are collected
in one record so every run is a pure function of this environment. -/

/-- Components of a parsed WHATWG URL used by the source
(`new URL(x).hostname` / `.pathname`); the parser itself is the platform's. -/
structure UrlParts where
  hostname : String
  pathname : String
deriving DecidableEq, Repr

/-- Result of the platform `fetch` as observed by `extractFromURL`
(src/utils/extractors.ts): status, statusText and the response text. -/
structure FetchResponse where
  status : Nat
  statusText : String
  body : String
deriving DecidableEq, Repr

/-- The fields of the `pdf-parse` result used by `extractFromPDF`
(src/utils/extractors.ts): `data.text`, `data.info?.Title`, `data.info?.Author`. -/
structure PdfData where
  text : String
  infoTitle : Option String
  infoAuthor : Option String
deriving DecidableEq, Repr

/-- Date components as JavaScript's `Date` getters expose them
(`getMonth()` is 0-based, as in the source). -/
structure DateParts where
  year : Nat
  monthIndex : Nat
  day : Nat
  hours : Nat
  minutes : Nat
  seconds : Nat
deriving DecidableEq, Repr

/-- Options resolved by `callLlm` (src/utils/llm.ts) before dispatching to a
provider: temperature and maxTokens after the `??` defaulting chain. -/
structure ResolvedLLMOptions where
  temperature : ℚ
  maxTokens : Nat
deriving DecidableEq, Repr

/-- The external world: every effectful collaborator the source calls.
`htmlToText` and `titleFromHTML` are the repository's regex-based HTML
helpers kept abstract (no claim depends on their output); the rest are
genuinely external (platform or npm).  `llmConfig` is the global LLM
configuration of src/utils/llm.ts (initialized to `defaultConfig.llm`,
possibly overridden once by `setLLMConfig` at startup). -/
structure Env where
  llmConfig : LLMConfig
  llm : String → ResolvedLLMOptions → Except String String
  urlParse : String → Option UrlParts
  pdfParse : String → Except String PdfData
  fetchUrl : String → Except String FetchResponse
  htmlToText : String → String
  titleFromHTML : String → Option String
  slugifyLib : String → String
  now : DateParts
  nowISO : Nat → String
  pathJoin : String → String → String
  mkdirErr : String → Option String
  writeErr : String → String → Option String

/-- `LLMOptions` as passed by the layer nodes (src/utils/llm.ts). -/
structure LLMOptions where
  temperature : Option ℚ
  maxTokens : Option Nat
deriving DecidableEq, Repr

/-- Embedding of `callLlm` (src/utils/llm.ts): resolves
`options?.temperature ?? config.temperature ?? 0.7` and
`options?.maxTokens ?? config.maxTokens ?? 4096`, then performs the
provider call (the external boundary, `env.llm`). -/
def callLlm (env : Env) (config : LLMConfig) (prompt : String)
    (options : LLMOptions) : Except String String :=
  let temperature := ((options.temperature).orElse (fun _ => config.temperature)).getD (7 / 10 : ℚ)
  let maxTokens := ((options.maxTokens).orElse (fun _ => config.maxTokens)).getD 4096
  env.llm prompt { temperature := temperature, maxTokens := maxTokens }

/-! ## Content extractors (src/utils/extractors.ts) -/

/-- `ExtractionResult.metadata` of src/utils/extractors.ts. -/
structure ExtractionMetadata where
  title : Option String
  author : Option String
  date : Option String
  wordCount : Nat
deriving DecidableEq, Repr

/-- `ExtractionResult` of src/utils/extractors.ts. -/
structure ExtractionResult where
  content : String
  metadata : ExtractionMetadata
deriving DecidableEq, Repr

/-- Whether a character is a JavaScript regex word character (`\w`). -/
def isWordChar (c : Char) : Bool :=
  c.isAlphanum || c = '_'

/-- Helper for `replace(/\b\w/g, c => c.toUpperCase())`: uppercase every
word character that is not preceded by a word character. -/
def capitalizeWordStarts (cs : List Char) (prevIsWord : Bool) : List Char :=
  match cs with
  | [] => []
  | c :: rest =>
      if isWordChar c && !prevIsWord then
        c.toUpper :: capitalizeWordStarts rest true
      else
        c :: capitalizeWordStarts rest (isWordChar c)

/-- `replace(/\b\w/g, (c) => c.toUpperCase())` on a string. -/
def capitalizeWords (s : String) : String :=
  String.mk (capitalizeWordStarts s.toList false)

/-- `replace(/\.[^.]+$/, '')`: drop a final `.ext` suffix (a dot followed by
one or more non-dot characters at the end), when present. -/
def removeExtSuffix (s : String) : String :=
  let rev := s.toList.reverse
  let tailPart := rev.takeWhile (fun c => c ≠ '.')
  if tailPart.length ≥ 1 ∧ (rev.drop tailPart.length).head? = some '.' then
    String.mk ((rev.drop (tailPart.length + 1)).reverse)
  else
    s

/-- `replace(/[-_]/g, ' ')`: dashes and underscores become spaces. -/
def dashesToSpaces (s : String) : String :=
  String.mk (s.toList.map (fun c => if c = '-' ∨ c = '_' then ' ' else c))

/-- Embedding of `extractTitleFromPath` (src/utils/extractors.ts). -/
def extractTitleFromPath (filePath : String) : String :=
  let fileName := jsOrStr ((jsSplitOnChar filePath '/').getLastD filePath) filePath
  capitalizeWords (dashesToSpaces (removeExtSuffix fileName))

/-- Embedding of `extractTitleFromURL` (src/utils/extractors.ts); the WHATWG
URL parse is the environment's. -/
def extractTitleFromURL (env : Env) (url : String) : String :=
  match env.urlParse url with
  | none => "Untitled"
  | some parts =>
      let pathParts := (jsSplitOnChar parts.pathname '/').filter (fun p => p ≠ "")
      match pathParts.getLast? with
      | some lastPart => capitalizeWords (removeExtSuffix (dashesToSpaces lastPart))
      | none => parts.hostname

/-- `replace(/^#+\s*/, '')` on a line known to start with a heading marker. -/
def stripHeadingMarker (s : String) : String :=
  String.mk ((s.toList.dropWhile (fun c => c = '#')).dropWhile (fun c => c.isWhitespace))

/-- Embedding of `extractTitleFromText` (src/utils/extractors.ts). -/
def extractTitleFromText (text : String) : String :=
  let lines := jsSplitOnChar (jsTrim text) '\n'
  let firstLine := jsOrStr (jsTrim (lines.headD "")) "Untitled"
  if jsStartsWith firstLine "#" then
    stripHeadingMarker firstLine
  else if firstLine.length ≤ 100 then
    firstLine
  else
    String.mk (firstLine.toList.take 97) ++ "..."

/-- Embedding of `extractFromText` (src/utils/extractors.ts): pass-through
for plain text, with derived title and word count.  Never fails. -/
def extractFromText (input : String) : ExtractionResult :=
  { content := input
    metadata :=
      { title := some (extractTitleFromText input)
        author := none
        date := none
        wordCount := countWords input } }

/-- Embedding of `extractFromPDF` (src/utils/extractors.ts); reading the
file and `pdf-parse` are the external boundary, the error wrapping and
metadata assembly are the source's. -/
def extractFromPDF (env : Env) (filePath : String) : Except String ExtractionResult :=
  match env.pdfParse filePath with
  | .error e => .error ("Failed to extract PDF content: " ++ e)
  | .ok data =>
      .ok { content := data.text
            metadata :=
              { title := some (jsOrOpt data.infoTitle (extractTitleFromPath filePath))
                author := data.infoAuthor
                date := none
                wordCount := countWords data.text } }

/-- Embedding of `extractFromImage` (src/utils/extractors.ts): a
placeholder that never fails and reports a zero word count. -/
def extractFromImage (filePath : String) : ExtractionResult :=
  { content := "[Image content from: " ++ filePath ++
      "]\n\nNote: OCR extraction requires tesseract.js or cloud OCR integration."
    metadata :=
      { title := some (extractTitleFromPath filePath)
        author := none
        date := none
        wordCount := 0 } }

/-- `response.ok` of the fetch API: status in the range 200..299. -/
def FetchResponse.isOk (r : FetchResponse) : Bool :=
  200 ≤ r.status ∧ r.status < 300

/-- Embedding of `extractFromURL` (src/utils/extractors.ts): every failure
inside the try block (including a non-ok HTTP status) is wrapped as
`Failed to fetch URL content: ...`; `created` is the fetch date. -/
def extractFromURL (env : Env) (url : String) : Except String ExtractionResult :=
  match env.fetchUrl url with
  | .error e => .error ("Failed to fetch URL content: " ++ e)
  | .ok response =>
      if !response.isOk then
        .error ("Failed to fetch URL content: HTTP " ++ toString response.status ++
          ": " ++ response.statusText)
      else
        let content := env.htmlToText response.body
        let title := jsOrOpt (env.titleFromHTML response.body) (extractTitleFromURL env url)
        .ok { content := content
              metadata :=
                { title := some title
                  author := none
                  date := some (env.nowISO 0)
                  wordCount := countWords content } }

/-! ## File utilities (src/utils/files.ts) -/

/-- Embedding of `slugify` (src/utils/files.ts): delegates to the npm
slugify library (external) with fixed options. -/
def slugify (env : Env) (title : String) : String :=
  env.slugifyLib title

/-- `String(n).padStart(2, '0')`. -/
def pad2 (n : Nat) : String :=
  let s := toString n
  if s.length < 2 then "0" ++ s else s

/-- Embedding of `generateTimestamp` (src/utils/files.ts):
`YYYYMMDD-HHmmss` from the date's components (`getMonth()` is 0-based and
the source adds 1; the year is not padded). -/
def generateTimestamp (d : DateParts) : String :=
  toString d.year ++ pad2 (d.monthIndex + 1) ++ pad2 d.day ++ "-" ++
    pad2 d.hours ++ pad2 d.minutes ++ pad2 d.seconds

/-- Embedding of `generateLayerFilename` (src/utils/files.ts). -/
def generateLayerFilename (timestamp slug : String) (level : Nat) : String :=
  timestamp ++ "_" ++ slug ++ "_level-" ++ toString level ++ ".md"

/-- `LayerMetadata` of src/utils/files.ts. -/
structure LayerMetadata where
  title : String
  layer : Nat
  layerName : String
  sourceType : String
  created : String
  wordCount : Nat
  author : Option String
deriving DecidableEq, Repr

/-- Embedding of `escapeYamlString` (src/utils/files.ts):
`str.replace(/"/g, '\\"')`. -/
def escapeYamlString (s : String) : String :=
  String.mk (s.toList.flatMap (fun c => if c = '"' then ['\\', '"'] else [c]))

/-- Embedding of `generateFrontmatter` (src/utils/files.ts): the YAML
lines, with the author line only when `metadata.author` is truthy, joined
by newlines with a trailing empty line. -/
def generateFrontmatter (metadata : LayerMetadata) : String :=
  let lines :=
    ["---",
     "title: \"" ++ escapeYamlString metadata.title ++ "\"",
     "layer: " ++ toString metadata.layer,
     "layer_name: \"" ++ metadata.layerName ++ "\"",
     "source: \"" ++ metadata.sourceType ++ "\"",
     "created: \"" ++ metadata.created ++ "\"",
     "word_count: " ++ toString metadata.wordCount] ++
    (if jsTruthyOpt metadata.author then
      ["author: \"" ++ escapeYamlString (metadata.author.getD "") ++ "\""]
     else []) ++
    ["---", ""]
  String.intercalate "\n" lines

/-- Embedding of `ensureDirectory` (src/utils/files.ts): `mkdir` errors
with code `EEXIST` are swallowed, every other error is rethrown. -/
def ensureDirectory (env : Env) (dirPath : String) : Except String Unit :=
  match env.mkdirErr dirPath with
  | none => .ok ()
  | some code => if code = "EEXIST" then .ok () else .error code

/-- The record of files successfully written, in write order
(path, full content). -/
abbrev FS := List (String × String)

/-- Embedding of `saveLayer` (src/utils/files.ts): ensure the directory,
join the path, build frontmatter + heading + content and write the file;
a write error propagates and writes nothing. -/
def saveLayer (env : Env) (directory filename content : String)
    (metadata : LayerMetadata) (fs : FS) : Except String (String × FS) :=
  match ensureDirectory env directory with
  | .error e => .error e
  | .ok _ =>
      let filePath := env.pathJoin directory filename
      let frontmatter := generateFrontmatter metadata
      let header := "# L" ++ toString metadata.layer ++ ": " ++ metadata.title ++
        " - " ++ metadata.layerName ++ "\n\n"
      let fullContent := frontmatter ++ header ++ content
      match env.writeErr filePath fullContent with
      | some e => .error e
      | none => .ok (filePath, fs ++ [(filePath, fullContent)])

/-- Embedding of `getLayerName` (src/utils/files.ts). -/
def getLayerName (level : Nat) : String :=
  match level with
  | 1 => "Initial Capture"
  | 2 => "Key Passages"
  | 3 => "Distilled Insights"
  | 4 => "Executive Summary"
  | 5 => "Creative Output"
  | _ => "Initial Capture"

/-! ## Input detection (src/nodes/input_detector_node.ts) -/

namespace InputDetectorNode

/-- `input.match(/^https?:\/\//i)`: a case-insensitive http/https scheme
at the start of the string. -/
def matchesHttpScheme (s : String) : Bool :=
  let l := jsToLower s
  jsStartsWith l "http://" || jsStartsWith l "https://"

/-- Embedding of the private `isUrl` (src/nodes/input_detector_node.ts):
scheme check first, then the platform URL parser must accept the input. -/
def isUrl (env : Env) (input : String) : Bool :=
  if !matchesHttpScheme input then false
  else (env.urlParse input).isSome

/-- Embedding of `isPdfFile` (src/nodes/input_detector_node.ts). -/
def isPdfFile (input : String) : Bool :=
  jsEndsWith (jsToLower input) ".pdf"

/-- The recognized image extensions (src/nodes/input_detector_node.ts). -/
def imageExtensions : List String :=
  [".png", ".jpg", ".jpeg", ".gif", ".bmp", ".webp", ".tiff"]

/-- Embedding of `isImageFile` (src/nodes/input_detector_node.ts). -/
def isImageFile (input : String) : Bool :=
  let lower := jsToLower input
  imageExtensions.any (fun ext => jsEndsWith lower ext)

/-- `InputDetectorNode.prep`: read the raw input. -/
def prep (shared : SharedState) : String :=
  shared.input.raw

/-- `InputDetectorNode.exec`: classify the trimmed input, URL first, then
PDF extension, then image extension, defaulting to text.  Total. -/
def exec (env : Env) (input : String) : InputType :=
  let trimmed := jsTrim input
  if isUrl env trimmed then .url
  else if isPdfFile trimmed then .pdf
  else if isImageFile trimmed then .image
  else .text

/-- `InputDetectorNode.post`: store the detected type and return its label
as the routing action. -/
def post (shared : SharedState) (inputType : InputType) : SharedState × String :=
  ({ shared with input := { shared.input with type := some inputType } }, inputType.label)

end InputDetectorNode

/-! ## Content extraction node (src/nodes/content_extractor_node.ts) -/

namespace ContentExtractorNode

/-- The node's `PrepResult`. -/
structure PrepResult where
  raw : String
  type : InputType
deriving DecidableEq, Repr

/-- `ContentExtractorNode.prep`: `shared.input.type || 'text'` (the type
tag has no falsy member, so this is just the undefined default). -/
def prep (shared : SharedState) : PrepResult :=
  { raw := shared.input.raw, type := shared.input.type.getD .text }

/-- `ContentExtractorNode.exec`: dispatch to the extractor for the
detected type (the `text` case is also the switch's default). -/
def exec (env : Env) (prepRes : PrepResult) : Except String ExtractionResult :=
  match prepRes.type with
  | .pdf => extractFromPDF env prepRes.raw
  | .image => .ok (extractFromImage prepRes.raw)
  | .url => extractFromURL env prepRes.raw
  | .text => .ok (extractFromText prepRes.raw)

/-- `ContentExtractorNode.post`: store content and metadata, then
initialize `output.timestamp` and `output.slug`. -/
def post (env : Env) (shared : SharedState) (result : ExtractionResult) :
    SharedState × String :=
  let md : SourceMetadata :=
    { title := jsOrOpt result.metadata.title "Untitled"
      author := result.metadata.author
      date := result.metadata.date
      sourceType := (shared.input.type.getD .text).label
      wordCount := result.metadata.wordCount }
  let s1 := { shared with
    content := { shared.content with raw := result.content }
    metadata := md }
  let s2 := { s1 with output := { s1.output with
    timestamp := some (generateTimestamp env.now)
    slug := some (slugify env md.title) } }
  (s2, "default")

end ContentExtractorNode

/-! ## Layer nodes (src/nodes/layer1..5). The prompt builders reproduce
the template literals of the source; `${cond ? text : ''}` template lines
keep their surrounding newlines. -/

/-- A `${o ? f(o) : ''}` template fragment over an optional string. -/
def jsCond (o : Option String) (f : String → String) : String :=
  match o with
  | none => ""
  | some s => if s = "" then "" else f s

namespace Layer1CaptureNode

/-- The node's `PrepResult`. -/
structure PrepResult where
  content : String
  title : String
  focusArea : Option String
  sourceType : String
  author : Option String
  date : Option String
deriving DecidableEq, Repr

/-- `Layer1CaptureNode.prep`. -/
def prep (shared : SharedState) : PrepResult :=
  { content := shared.content.raw
    title := shared.metadata.title
    focusArea := shared.input.focusArea
    sourceType := shared.metadata.sourceType
    author := shared.metadata.author
    date := shared.metadata.date }

/-- The Layer 1 prompt template literal. -/
def prompt (pr : PrepResult) : String :=
  "You are applying Layer 1 of Tiago Forte\x27s Progressive Summarization method.\n\n" ++
  "## Task: Initial Capture\n\n" ++
  "Select all passages from the content below that resonate or feel potentially useful. Use resonance-based selection—choose content that triggers immediate recognition:\n" ++
  "- Surprising insights\n" ++
  "- Useful frameworks\n" ++
  "- Ideas that simplify complexity\n" ++
  "- Anything that makes you think \"that\x27s interesting\" or \"I might need this\"\n\n" ++
  "## Content Information\n" ++
  "- Title: " ++ pr.title ++ "\n" ++
  jsCond pr.author (fun a => "- Author: " ++ a) ++ "\n" ++
  jsCond pr.date (fun d => "- Date: " ++ d) ++ "\n" ++
  "- Source Type: " ++ pr.sourceType ++ "\n" ++
  jsCond pr.focusArea (fun f => "- Focus Area: " ++ f) ++ "\n\n" ++
  "## Guidelines\n" ++
  "1. Preserve the original author\x27s language exactly\n" ++
  "2. Maintain natural section breaks\n" ++
  "3. Include source metadata at the top\n" ++
  "4. Be generous in what you capture—this is the broadest layer\n" ++
  "5. Trust intuitive responses over analytical criteria\n\n" ++
  "## Content to Process\n\n" ++
  pr.content ++ "\n\n" ++
  "---\n\n" ++
  "Return the captured content as markdown, preserving structure and formatting. Include everything that resonates, even if uncertain about its value."

/-- `Layer1CaptureNode.exec`: one LLM call at temperature 0.3. -/
def exec (env : Env) (prepRes : PrepResult) : Except String String :=
  callLlm env env.llmConfig (prompt prepRes) { temperature := some (3 / 10 : ℚ), maxTokens := none }

/-- `Layer1CaptureNode.post`: store the result in `layers.layer1`. -/
def post (shared : SharedState) (result : String) : SharedState × String :=
  ({ shared with layers := { shared.layers with layer1 := some result } }, "default")

end Layer1CaptureNode

namespace Layer2BoldNode

/-- `Layer2BoldNode.prep`: `shared.layers.layer1 || ''`. -/
def prep (shared : SharedState) : String :=
  jsOrOpt shared.layers.layer1 ""

/-- The Layer 2 prompt template literal. -/
def prompt (layer1Content : String) : String :=
  "You are applying Layer 2 of Tiago Forte\x27s Progressive Summarization method.\n\n" ++
  "## Task: Bold Emphasis\n\n" ++
  "Take the Layer 1 capture below and add **bold formatting** to the most important 20-30% of the text.\n\n" ++
  "## Selection Criteria for Bolding\n\n" ++
  "Focus on:\n" ++
  "1. **Core arguments** - The main claims and conclusions\n" ++
  "2. **Key phrases** - Memorable language that captures concepts\n" ++
  "3. **High-density sentences** - Passages that pack multiple insights\n" ++
  "4. **Memory hooks** - Keywords and phrases that aid recall\n" ++
  "5. **Actionable items** - Specific recommendations or steps\n\n" ++
  "## Guidelines\n\n" ++
  "1. Copy the ENTIRE Layer 1 content\n" ++
  "2. Add **bold** markers around the most important parts\n" ++
  "3. Aim for 20-30% of text to be bolded\n" ++
  "4. The bolded portions should form a coherent narrative when read alone\n" ++
  "5. Don\x27t change any words—only add bold formatting\n" ++
  "6. Preserve all original structure and formatting\n\n" ++
  "## Layer 1 Content\n\n" ++
  layer1Content ++ "\n\n" ++
  "---\n\n" ++
  "Return the complete content with bold emphasis added. Do not summarize or remove any content."

/-- `Layer2BoldNode.exec`: one LLM call at temperature 0.3. -/
def exec (env : Env) (layer1Content : String) : Except String String :=
  callLlm env env.llmConfig (prompt layer1Content) { temperature := some (3 / 10 : ℚ), maxTokens := none }

/-- `Layer2BoldNode.post`: store the result in `layers.layer2`. -/
def post (shared : SharedState) (result : String) : SharedState × String :=
  ({ shared with layers := { shared.layers with layer2 := some result } }, "default")

end Layer2BoldNode

namespace Layer3DistillNode

/-- The node's `PrepResult`. -/
structure PrepResult where
  layer2 : String
  originalWordCount : Nat
deriving DecidableEq, Repr

/-- `Layer3DistillNode.prep`. -/
def prep (shared : SharedState) : PrepResult :=
  { layer2 := jsOrOpt shared.layers.layer2 ""
    originalWordCount := shared.metadata.wordCount }

/-- `Math.round(originalWordCount * 0.12)`, computed on exact rationals
(the source computes it in floating point; the value only feeds the
prompt text, which no claim inspects). -/
def targetWords (originalWordCount : Nat) : Nat :=
  (6 * originalWordCount + 25) / 50

/-- The Layer 3 prompt template literal. -/
def prompt (pr : PrepResult) : String :=
  "You are applying Layer 3 of Tiago Forte\x27s Progressive Summarization method.\n\n" ++
  "## Task: Distill to Essential Insights\n\n" ++
  "Extract only the most transformative insights from the Layer 2 content below. This layer should contain approximately 10-15% of the original content (target: ~" ++
  toString (targetWords pr.originalWordCount) ++ " words).\n\n" ++
  "## Output Structure\n\n" ++
  "Organize the distilled content with these headers:\n\n" ++
  "### Core Concepts\n" ++
  "The fundamental ideas and frameworks\n\n" ++
  "### Key Findings\n" ++
  "The most important discoveries or conclusions\n\n" ++
  "### Actionable Principles\n" ++
  "Specific guidance that can be applied\n\n" ++
  "## Guidelines\n\n" ++
  "1. Extract only the \"gems\"—insights that would be highlighted if reviewing Layer 2\n" ++
  "2. Reorganize thematically rather than sequentially\n" ++
  "3. This layer should be scannable in 10-20 seconds\n" ++
  "4. Use bullet points for clarity\n" ++
  "5. Each point should stand alone as a valuable insight\n" ++
  "6. Preserve exact language where impactful, but condense where possible\n\n" ++
  "## Layer 2 Content (with bold emphasis)\n\n" ++
  pr.layer2 ++ "\n\n" ++
  "---\n\n" ++
  "Return the distilled insights in the structured format above. Be ruthless in compression—only the transformative insights should remain."

/-- `Layer3DistillNode.exec`: one LLM call at temperature 0.4. -/
def exec (env : Env) (prepRes : PrepResult) : Except String String :=
  callLlm env env.llmConfig (prompt prepRes) { temperature := some (2 / 5 : ℚ), maxTokens := none }

/-- `Layer3DistillNode.post`: store the result in `layers.layer3`. -/
def post (shared : SharedState) (result : String) : SharedState × String :=
  ({ shared with layers := { shared.layers with layer3 := some result } }, "default")

end Layer3DistillNode

namespace Layer4SummaryNode

/-- The node's `PrepResult`. -/
structure PrepResult where
  layer3 : String
  title : String
  author : Option String
deriving DecidableEq, Repr

/-- `Layer4SummaryNode.prep`. -/
def prep (shared : SharedState) : PrepResult :=
  { layer3 := jsOrOpt shared.layers.layer3 ""
    title := shared.metadata.title
    author := shared.metadata.author }

/-- The Layer 4 prompt template literal. -/
def prompt (pr : PrepResult) : String :=
  "You are applying Layer 4 of Tiago Forte\x27s Progressive Summarization method.\n\n" ++
  "## Task: Executive Summary\n\n" ++
  "Create a personal synthesis of the insights below. Write in first-person perspective, as if explaining this to yourself for future reference.\n\n" ++
  "## Source\n" ++
  "- Title: \"" ++ pr.title ++ "\"\n" ++
  jsCond pr.author (fun a => "- Author: " ++ a) ++ "\n\n" ++
  "## Output Structure (Maximum 250 words total)\n\n" ++
  "### The Big Idea\n" ++
  "1-2 sentences capturing the central insight\n\n" ++
  "### What This Means\n" ++
  "A personal interpretation—what makes this significant to me\n\n" ++
  "### Key Takeaways\n" ++
  "- First key point\n" ++
  "- Second key point\n" ++
  "- Third key point\n\n" ++
  "### Next Actions\n" ++
  "Specific ways I can apply these insights\n\n" ++
  "## Guidelines\n\n" ++
  "1. Write in first person (\"I learned...\", \"This means I should...\")\n" ++
  "2. Use your own language, not the author\x27s\n" ++
  "3. Transform concepts into your mental models\n" ++
  "4. Be specific about applications\n" ++
  "5. Make it personal and actionable\n" ++
  "6. Stay under 250 words\n\n" ++
  "## Layer 3 Insights\n\n" ++
  pr.layer3 ++ "\n\n" ++
  "---\n\n" ++
  "Return the executive summary in the structured format above. This should sound like your own voice, not a formal summary."

/-- `Layer4SummaryNode.exec`: one LLM call at temperature 0.6. -/
def exec (env : Env) (prepRes : PrepResult) : Except String String :=
  callLlm env env.llmConfig (prompt prepRes) { temperature := some (3 / 5 : ℚ), maxTokens := none }

/-- `Layer4SummaryNode.post`: store the result in `layers.layer4`. -/
def post (shared : SharedState) (result : String) : SharedState × String :=
  ({ shared with layers := { shared.layers with layer4 := some result } }, "default")

end Layer4SummaryNode

namespace Layer5CreativeNode

/-- The node's `PrepResult`. -/
structure PrepResult where
  layer3 : String
  layer4 : String
  title : String
  outputFormat : Option String
  sourceType : String
deriving DecidableEq, Repr

/-- `Layer5CreativeNode.prep`. -/
def prep (shared : SharedState) : PrepResult :=
  { layer3 := jsOrOpt shared.layers.layer3 ""
    layer4 := jsOrOpt shared.layers.layer4 ""
    title := shared.metadata.title
    outputFormat := shared.input.outputFormat
    sourceType := shared.metadata.sourceType }

/-- The `formatInstruction` ternary of `Layer5CreativeNode.exec`. -/
def formatInstruction (outputFormat : Option String) : String :=
  if jsTruthyOpt outputFormat then
    "Create a " ++ outputFormat.getD "" ++ "."
  else
    "Auto-detect the best format based on content type:\n" ++
    "- Technical/coding content → Implementation checklist with code snippets\n" ++
    "- Conceptual/theoretical content → Visual framework diagram (Mermaid)\n" ++
    "- Process/workflow content → Step-by-step implementation guide\n" ++
    "- Research/academic content → Article or presentation outline"

/-- The Layer 5 prompt template literal. -/
def prompt (pr : PrepResult) : String :=
  "You are applying Layer 5 of Tiago Forte\x27s Progressive Summarization method.\n\n" ++
  "## Task: Creative Output\n\n" ++
  "Transform the insights into an original, actionable deliverable that extends beyond summarization.\n\n" ++
  "## Source\n" ++
  "- Title: \"" ++ pr.title ++ "\"\n" ++
  "- Original Type: " ++ pr.sourceType ++ "\n\n" ++
  "## Format\n" ++
  formatInstruction pr.outputFormat ++ "\n\n" ++
  "## Requirements\n\n" ++
  "1. **Add Original Value**: Don\x27t just reorganize—create something new\n" ++
  "2. **Make It Actionable**: The output should be immediately usable\n" ++
  "3. **Include Examples**: Add new examples or applications not in the original\n" ++
  "4. **Show Connections**: Link ideas to other concepts or domains\n" ++
  "5. **Be Creative**: This is your chance to extend the material\n\n" ++
  "## Possible Output Types\n\n" ++
  "### If Implementation Checklist:\n" ++
  "- [ ] Step-by-step tasks\n" ++
  "- Include specific commands or code\n" ++
  "- Add verification steps\n\n" ++
  "### If Mermaid Diagram:\n" ++
  "\x60\x60\x60mermaid\n" ++
  "flowchart TD / mindmap / etc.\n" ++
  "\x60\x60\x60\n" ++
  "- Visualize relationships\n" ++
  "- Show hierarchy or flow\n\n" ++
  "### If Step-by-Step Guide:\n" ++
  "1. Clear numbered steps\n" ++
  "2. Include decision points\n" ++
  "3. Add tips and warnings\n\n" ++
  "### If Article Outline:\n" ++
  "- Compelling sections\n" ++
  "- Key points per section\n" ++
  "- Suggested examples\n\n" ++
  "## Layer 3 (Distilled Insights)\n\n" ++
  pr.layer3 ++ "\n\n" ++
  "## Layer 4 (Executive Summary)\n\n" ++
  pr.layer4 ++ "\n\n" ++
  "---\n\n" ++
  "Create the most appropriate creative output that transforms these insights into immediate value. The output should be something the reader can use right away."

/-- `Layer5CreativeNode.exec`: one LLM call at temperature 0.7. -/
def exec (env : Env) (prepRes : PrepResult) : Except String String :=
  callLlm env env.llmConfig (prompt prepRes) { temperature := some (7 / 10 : ℚ), maxTokens := none }

/-- `Layer5CreativeNode.post`: store the result in `layers.layer5`. -/
def post (shared : SharedState) (result : String) : SharedState × String :=
  ({ shared with layers := { shared.layers with layer5 := some result } }, "default")

end Layer5CreativeNode

/-! ## Batch save node (src/nodes/file_saver_node.ts, a BatchNode) -/

/-- `keyof SharedState['layers']` as used by the saver's layer table. -/
inductive LayerKey
  | layer1
  | layer2
  | layer3
  | layer4
  | layer5
deriving DecidableEq, Repr

/-- Field access `shared.layers[key]`. -/
def LayersState.get (layers : LayersState) : LayerKey → Option String
  | .layer1 => layers.layer1
  | .layer2 => layers.layer2
  | .layer3 => layers.layer3
  | .layer4 => layers.layer4
  | .layer5 => layers.layer5

/-- `LayerConfig` of src/nodes/file_saver_node.ts. -/
structure LayerConfig where
  level : Nat
  name : String
  key : LayerKey
deriving DecidableEq, Repr

/-- The saver's fixed `layerConfigs` table. -/
def layerConfigs : List LayerConfig :=
  [{ level := 1, name := "Initial Capture", key := .layer1 },
   { level := 2, name := "Key Passages", key := .layer2 },
   { level := 3, name := "Distilled Insights", key := .layer3 },
   { level := 4, name := "Executive Summary", key := .layer4 },
   { level := 5, name := "Creative Output", key := .layer5 }]

/-- `LayerEntry` of src/types.ts (one batch item). -/
structure LayerEntry where
  level : Nat
  name : String
  content : String
deriving DecidableEq, Repr

namespace FileSaverNode

/-- `FileSaverNode.prep`: walk `layerConfigs` in order and keep an entry
for every slot whose content is truthy (defined and non-empty). -/
def prep (shared : SharedState) : List LayerEntry :=
  layerConfigs.filterMap fun config =>
    match shared.layers.get config.key with
    | some content =>
        if content = "" then none
        else some { level := config.level, name := config.name, content := content }
    | none => none

/-- JSON string escaping for the entry serializer (quote, backslash and
the common control characters; entry contents in the claims stay in this
fragment). -/
def jsonEscape (s : String) : String :=
  String.mk (s.toList.flatMap fun c =>
    if c = '\\' then ['\\', '\\']
    else if c = '"' then ['\\', '"']
    else if c = '\n' then ['\\', 'n']
    else if c = '\r' then ['\\', 'r']
    else if c = '\t' then ['\\', 't']
    else [c])

/-- `FileSaverNode.exec`: per-item work is a stub returning
`JSON.stringify(entry)`; the results are ignored by `post`. -/
def exec (entry : LayerEntry) : String :=
  "\x7b\"level\":" ++ toString entry.level ++
    ",\"name\":\"" ++ jsonEscape entry.name ++
    "\",\"content\":\"" ++ jsonEscape entry.content ++ "\"\x7d"

/-- The save loop of `FileSaverNode.post`.  `savedFiles` is the node's
local accumulator; the shared state is only assigned after the whole loop
succeeds, so a failing `saveLayer` surfaces with `shared` untouched.
`callIdx` counts the `new Date().toISOString()` calls. -/
def postGo (env : Env) (shared : SharedState) (timestamp slug directory : String)
    (fs : FS) (callIdx : Nat) (entries : List LayerEntry) (savedFiles : List String) :
    Except (String × SharedState × FS) (SharedState × String × FS) :=
  match entries with
  | [] =>
      .ok ({ shared with output := { shared.output with savedFiles := savedFiles } },
        "default", fs)
  | entry :: rest =>
      let filename := generateLayerFilename timestamp slug entry.level
      let metadata : LayerMetadata :=
        { title := shared.metadata.title
          layer := entry.level
          layerName := entry.name
          sourceType := shared.metadata.sourceType
          created := env.nowISO callIdx
          wordCount := countWords entry.content
          author := shared.metadata.author }
      match saveLayer env directory filename entry.content metadata fs with
      | .error e => .error (e, shared, fs)
      | .ok (filePath, fs') =>
          postGo env shared timestamp slug directory fs' (callIdx + 1) rest
            (savedFiles ++ [filePath])

/-- `FileSaverNode.post`: save every entry in order, then write the
accumulated path list into `shared.output.savedFiles`.  The per-item
results are ignored (`_results` in the source). -/
def post (env : Env) (shared : SharedState) (entries : List LayerEntry)
    (_results : List String) (fs : FS) :
    Except (String × SharedState × FS) (SharedState × String × FS) :=
  postGo env shared (jsOrOpt shared.output.timestamp "")
    (jsOrOpt shared.output.slug "untitled") shared.output.directory fs 0 entries []

end FileSaverNode

/-! ## The note flow (src/flows/note_flow.ts) and the engine.

PocketFlow itself is an external npm dependency, not part of this
repository's sources.  The engine below is modelled from the spec: each
node runs prepare, then execute under the retry loop, then finalize; the
returned outcome label is looked up in the routing table, and a label
with no successor ends the run.  Node constructor defaults (a single
attempt, no wait) are the framework's documented defaults, used because
`createNoteFlow` passes no constructor arguments. -/

/-- The eight node instances created by `createNoteFlow`. -/
inductive NodeId
  | inputDetector
  | contentExtractor
  | layer1
  | layer2
  | layer3
  | layer4
  | layer5
  | fileSaver
deriving DecidableEq, Repr

/-- A declared retry policy (maximum attempts, inter-attempt wait in
seconds). -/
structure RetryPolicy where
  maxRetries : Nat
  wait : Nat
deriving DecidableEq, Repr

/-- Modelled from the spec: the engine's per-node default when a node is
constructed without arguments — one attempt, no wait. -/
def defaultNodeRetry : RetryPolicy :=
  { maxRetries := 1, wait := 0 }

/-- The constructor arguments passed to each node at its creation site in
`createNoteFlow` (src/flows/note_flow.ts): every node is constructed with
`new ...Node()`, i.e. no retry arguments at all. -/
def nodeCtorRetry : NodeId → Option RetryPolicy :=
  fun _ => none

/-- A node declaration of the constructed flow: its identity and the
retry policy its construction site declares. -/
structure NodeDecl where
  id : NodeId
  ctorRetry : Option RetryPolicy
deriving DecidableEq, Repr

/-- The nodes of the constructed note flow, with the retry policy each
construction site declares. -/
def noteFlowNodes : List NodeDecl :=
  [{ id := .inputDetector, ctorRetry := nodeCtorRetry .inputDetector },
   { id := .contentExtractor, ctorRetry := nodeCtorRetry .contentExtractor },
   { id := .layer1, ctorRetry := nodeCtorRetry .layer1 },
   { id := .layer2, ctorRetry := nodeCtorRetry .layer2 },
   { id := .layer3, ctorRetry := nodeCtorRetry .layer3 },
   { id := .layer4, ctorRetry := nodeCtorRetry .layer4 },
   { id := .layer5, ctorRetry := nodeCtorRetry .layer5 },
   { id := .fileSaver, ctorRetry := nodeCtorRetry .fileSaver }]

/-- The retry policy that actually governs a node's execute phase:
its declared constructor arguments, or the engine default. -/
def effectiveRetry (d : NodeDecl) : RetryPolicy :=
  d.ctorRetry.getD defaultNodeRetry

/-- The attempt budget governing a node's execute phase in this flow. -/
def nodeMaxRetries (n : NodeId) : Nat :=
  ((nodeCtorRetry n).getD defaultNodeRetry).maxRetries

/-- The routing table built by `createNoteFlow`: the four detector labels
all map to the extractor (`.on`), and the chain is wired with `.next`,
i.e. under the reserved label `default`.  Lookup is exact label equality;
an unregistered label has no successor. -/
def successor : NodeId → String → Option NodeId
  | .inputDetector, "text" => some .contentExtractor
  | .inputDetector, "pdf" => some .contentExtractor
  | .inputDetector, "image" => some .contentExtractor
  | .inputDetector, "url" => some .contentExtractor
  | .contentExtractor, "default" => some .layer1
  | .layer1, "default" => some .layer2
  | .layer2, "default" => some .layer3
  | .layer3, "default" => some .layer4
  | .layer4, "default" => some .layer5
  | .layer5, "default" => some .fileSaver
  | _, _ => none

/-- Modelled from the spec: the execute-phase retry loop.  Execute is a
pure function of the environment and the prepared input, so re-invoking
it yields the same outcome; the loop returns the first success, or the
last failure once the attempt budget is exhausted. -/
def attemptExec {α : Type} (run1 : Except String α) : Nat → Except String α
  | 0 => run1
  | 1 => run1
  | n + 2 =>
      match run1 with
      | .ok v => .ok v
      | .error _ => attemptExec run1 (n + 1)

/-- A run aborted by an exhausted execute failure: the error is wrapped
with the node's identity, and the shared state and filesystem at the
moment of the abort are observable by the caller. -/
structure FlowAbort where
  node : NodeId
  message : String
  state : SharedState
  fs : FS

/-- Modelled from the spec: one node activation — prepare, execute under
the retry budget, finalize — returning the updated state, the outcome
label and the filesystem, or the abort. -/
def stepNode (env : Env) (n : NodeId) (s : SharedState) (fs : FS) :
    Except FlowAbort (SharedState × String × FS) :=
  match n with
  | .inputDetector =>
      let pr := InputDetectorNode.prep s
      match attemptExec (.ok (InputDetectorNode.exec env pr)) (nodeMaxRetries .inputDetector) with
      | .error e => .error ⟨.inputDetector, e, s, fs⟩
      | .ok t =>
          let (s', a) := InputDetectorNode.post s t
          .ok (s', a, fs)
  | .contentExtractor =>
      let pr := ContentExtractorNode.prep s
      match attemptExec (ContentExtractorNode.exec env pr) (nodeMaxRetries .contentExtractor) with
      | .error e => .error ⟨.contentExtractor, e, s, fs⟩
      | .ok r =>
          let (s', a) := ContentExtractorNode.post env s r
          .ok (s', a, fs)
  | .layer1 =>
      let pr := Layer1CaptureNode.prep s
      match attemptExec (Layer1CaptureNode.exec env pr) (nodeMaxRetries .layer1) with
      | .error e => .error ⟨.layer1, e, s, fs⟩
      | .ok r =>
          let (s', a) := Layer1CaptureNode.post s r
          .ok (s', a, fs)
  | .layer2 =>
      let pr := Layer2BoldNode.prep s
      match attemptExec (Layer2BoldNode.exec env pr) (nodeMaxRetries .layer2) with
      | .error e => .error ⟨.layer2, e, s, fs⟩
      | .ok r =>
          let (s', a) := Layer2BoldNode.post s r
          .ok (s', a, fs)
  | .layer3 =>
      let pr := Layer3DistillNode.prep s
      match attemptExec (Layer3DistillNode.exec env pr) (nodeMaxRetries .layer3) with
      | .error e => .error ⟨.layer3, e, s, fs⟩
      | .ok r =>
          let (s', a) := Layer3DistillNode.post s r
          .ok (s', a, fs)
  | .layer4 =>
      let pr := Layer4SummaryNode.prep s
      match attemptExec (Layer4SummaryNode.exec env pr) (nodeMaxRetries .layer4) with
      | .error e => .error ⟨.layer4, e, s, fs⟩
      | .ok r =>
          let (s', a) := Layer4SummaryNode.post s r
          .ok (s', a, fs)
  | .layer5 =>
      let pr := Layer5CreativeNode.prep s
      match attemptExec (Layer5CreativeNode.exec env pr) (nodeMaxRetries .layer5) with
      | .error e => .error ⟨.layer5, e, s, fs⟩
      | .ok r =>
          let (s', a) := Layer5CreativeNode.post s r
          .ok (s', a, fs)
  | .fileSaver =>
      let entries := FileSaverNode.prep s
      let results := entries.map FileSaverNode.exec
      match FileSaverNode.post env s entries results fs with
      | .error (e, s', fs') => .error ⟨.fileSaver, e, s', fs'⟩
      | .ok (s', a, fs') => .ok (s', a, fs')

/-- Modelled from the spec: the flow engine's walk.  Starting from the
current node, run its activation, then follow the routing table on the
returned label; a label with no registered successor ends the run.  The
list accumulates the state after each finalize (the run trace). -/
def runFlow (env : Env) : Nat → NodeId → SharedState → FS → List SharedState →
    Except FlowAbort (SharedState × FS × List SharedState)
  | 0, cur, s, fs, _ => .error ⟨cur, "max steps exceeded", s, fs⟩
  | fuel + 1, cur, s, fs, trace =>
      match stepNode env cur s fs with
      | .error a => .error a
      | .ok (s', action, fs') =>
          let trace' := trace ++ [s']
          match successor cur action with
          | none => .ok (s', fs', trace')
          | some nxt => runFlow env fuel nxt s' fs' trace'

/-- A full run of `createNoteFlow` from an initial state with an empty
filesystem log; the trace records the initial state and the state after
each node.  The graph has eight nodes and no cycles, so the fuel is
ample. -/
def runNoteFlow (env : Env) (s0 : SharedState) :
    Except FlowAbort (SharedState × FS × List SharedState) :=
  runFlow env 32 .inputDetector s0 [] [s0]

/-! ## Auxiliary definitions used by the verification -/

/-- The `LayerMetadata` record the saver builds for the entry saved at the
`callIdx`-th position of its loop (read off `FileSaverNode.postGo`). -/
def saveMetadata (shared : SharedState) (env : Env) (callIdx : Nat) (e : LayerEntry) :
    LayerMetadata :=
  { title := shared.metadata.title
    layer := e.level
    layerName := e.name
    sourceType := shared.metadata.sourceType
    created := env.nowISO callIdx
    wordCount := countWords e.content
    author := shared.metadata.author }

/-- The files the saver's loop writes for a list of entries, starting at
date-call index `callIdx`: one file per entry, in entry order. -/
def savedWrites (env : Env) (shared : SharedState) (t sl d : String) :
    Nat → List LayerEntry → FS
  | _, [] => []
  | callIdx, e :: rest =>
      (env.pathJoin d (generateLayerFilename t sl e.level),
        generateFrontmatter (saveMetadata shared env callIdx e) ++
          ("# L" ++ toString e.level ++ ": " ++ shared.metadata.title ++ " - " ++
            e.name ++ "\n\n") ++ e.content) ::
        savedWrites env shared t sl d (callIdx + 1) rest

/-- A concrete environment for witnesses: the LLM always answers
"response", URL parsing always fails (so plain strings classify as text),
the filesystem always succeeds, and dates are fixed. -/
def witnessEnv : Env :=
  { llmConfig := defaultConfig.llm
    llm := fun _ _ => .ok "response"
    urlParse := fun _ => none
    pdfParse := fun _ => .error "not a pdf"
    fetchUrl := fun _ => .error "offline"
    htmlToText := fun h => h
    titleFromHTML := fun _ => none
    slugifyLib := fun s => s
    now := { year := 2024, monthIndex := 0, day := 15, hours := 14, minutes := 30, seconds := 22 }
    nowISO := fun _ => "2024-01-15T14:30:22.000Z"
    pathJoin := fun a b => a ++ "/" ++ b
    mkdirErr := fun _ => none
    writeErr := fun _ _ => none }

/-- A shared state as it stands when the batch saver runs: all five
layers populated, timestamp and slug initialized, no files saved yet. -/
def sBatch : SharedState :=
  { input := { raw := "note", type := some .text, focusArea := none, outputFormat := none }
    metadata := { title := "Note", author := none, date := none, sourceType := "text", wordCount := 9 }
    content := { raw := "note", sections := none }
    layers := { layer1 := some "one", layer2 := some "two", layer3 := some "three",
                layer4 := some "four", layer5 := some "five" }
    output := { directory := "./data/notes", timestamp := some "20240115-143022",
                slug := some "note", savedFiles := [] } }

/-- An environment whose filesystem rejects exactly the level-3 artifact
(e.g. the disk fills up on the third file). -/
def envFail3 : Env :=
  { witnessEnv with
      writeErr := fun path _ =>
        if path = "./data/notes/20240115-143022_note_level-3.md" then
          some "ENOSPC: no space left on device"
        else none }

/-- The result of the batch saver's finalize under `envFail3`. -/
def failedSaveResult : Except (String × SharedState × FS) (SharedState × String × FS) :=
  FileSaverNode.post envFail3 sBatch (FileSaverNode.prep sBatch)
    ((FileSaverNode.prep sBatch).map FileSaverNode.exec) []

/-- The filesystem log at the moment the failing save surfaces. -/
def fsBeforeFailure : FS :=
  match failedSaveResult with
  | .error (_, _, fs) => fs
  | .ok (_, _, fs) => fs

/-- The batch saver's finalize on `sBatch` under the always-succeeding
environment. -/
def okSaveResult : Except (String × SharedState × FS) (SharedState × String × FS) :=
  FileSaverNode.post witnessEnv sBatch (FileSaverNode.prep sBatch)
    ((FileSaverNode.prep sBatch).map FileSaverNode.exec) []

/-- Final state of the successful batch save. -/
def sAfterSave : SharedState :=
  match okSaveResult with
  | .ok (s, _, _) => s
  | .error (_, s, _) => s

/-- Outcome label of the successful batch save. -/
def aAfterSave : String :=
  match okSaveResult with
  | .ok (_, a, _) => a
  | .error _ => ""

/-- Filesystem log of the successful batch save. -/
def fsAfterSave : FS :=
  match okSaveResult with
  | .ok (_, _, fs) => fs
  | .error (_, _, fs) => fs

/-- An environment where URL syntax parses but the network is down: the
model of an unresolvable URL. -/
def envUrlFail : Env :=
  { witnessEnv with
      urlParse := fun _ => some { hostname := "no-such-host.invalid", pathname := "/a" } }

/-- A full successful run over `witnessEnv` on plain-text input
"hello", and its projections (used to witness run-level theorems). -/
def noteRunW : Except FlowAbort (SharedState × FS × List SharedState) :=
  runNoteFlow witnessEnv (createInitialState "hello" none)

/-- Final state of the witness run. -/
def sFW : SharedState :=
  match noteRunW with
  | .ok (s, _, _) => s
  | .error a => a.state

/-- Filesystem log of the witness run. -/
def fsFW : FS :=
  match noteRunW with
  | .ok (_, fs, _) => fs
  | .error a => a.fs

/-- State trace of the witness run. -/
def trW : List SharedState :=
  match noteRunW with
  | .ok (_, _, tr) => tr
  | .error _ => []

/-! ## General lemmas about the engine and the saver -/

/-- One unfolding of the engine's walk. -/
theorem runFlow_succ (env : Env) (n : Nat) (cur : NodeId) (s : SharedState) (fs : FS)
    (trace : List SharedState) :
    runFlow env (n + 1) cur s fs trace =
      (match stepNode env cur s fs with
       | .error a => .error a
       | .ok (s', action, fs') =>
           match successor cur action with
           | none => .ok (s', fs', trace ++ [s'])
           | some nxt => runFlow env n nxt s' fs' (trace ++ [s'])) := rfl

/-- A successful execute needs no retry. -/
theorem attemptExec_ok {α : Type} (x : α) :
    ∀ n, attemptExec (Except.ok x : Except String α) n = .ok x
  | 0 => rfl
  | 1 => rfl
  | _ + 2 => rfl

/-- A deterministically failing execute fails on every attempt, so the
whole budget fails with the same error. -/
theorem attemptExec_error {α : Type} (e : String) :
    ∀ n, attemptExec (Except.error e : Except String α) n = .error e
  | 0 => rfl
  | 1 => rfl
  | n + 2 => by
      show attemptExec (Except.error e : Except String α) (n + 1 + 1) = .error e
      rw [attemptExec]
      exact attemptExec_error e (n + 1)

/-- What a successful `saveLayer` does: the stored path is the joined
directory and filename, and exactly one file — frontmatter, heading,
content — is appended to the log. -/
theorem saveLayer_ok_eq {env : Env} {d fn c : String} {md : LayerMetadata} {fs : FS}
    {p : String} {fs' : FS} (h : saveLayer env d fn c md fs = .ok (p, fs')) :
    p = env.pathJoin d fn ∧
    fs' = fs ++ [(p, generateFrontmatter md ++
      ("# L" ++ toString md.layer ++ ": " ++ md.title ++ " - " ++ md.layerName ++ "\n\n") ++ c)] := by
  unfold saveLayer at h
  dsimp only at h
  split at h
  · exact absurd h (by simp)
  · split at h
    · exact absurd h (by simp)
    · simp only [Except.ok.injEq, Prod.mk.injEq] at h
      obtain ⟨hp, hfs⟩ := h
      subst hp hfs
      exact ⟨rfl, rfl⟩

/-- A failing `saveLayer` writes nothing. -/
theorem saveLayer_error_cases {env : Env} {d fn c : String} {md : LayerMetadata} {fs : FS}
    {e : String} (h : saveLayer env d fn c md fs = .error e) :
    ensureDirectory env d = .error e ∨
      env.writeErr (env.pathJoin d fn)
        (generateFrontmatter md ++
          ("# L" ++ toString md.layer ++ ": " ++ md.title ++ " - " ++ md.layerName ++ "\n\n") ++ c)
        = some e := by
  unfold saveLayer at h
  dsimp only at h
  split at h
  · rename_i heq
    left
    rw [heq]
    injection h with h1
    rw [h1]
  · split at h
    · rename_i heq
      right
      injection h with h1
      rw [heq, h1]
    · exact absurd h (by simp)

/-- Inversion of the saver's loop on success: finalize assigned the
accumulated paths (in entry order) to `output.savedFiles`, returned the
label `default`, and appended exactly the per-entry files to the log. -/
theorem postGo_ok {env : Env} {shared : SharedState} {t sl d : String} :
    ∀ {entries : List LayerEntry} {fs : FS} {ci : Nat} {acc : List String}
      {s' : SharedState} {a : String} {fs' : FS},
    FileSaverNode.postGo env shared t sl d fs ci entries acc = .ok (s', a, fs') →
    s' = { shared with output := { shared.output with
            savedFiles := acc ++ entries.map (fun e =>
              env.pathJoin d (generateLayerFilename t sl e.level)) } } ∧
    a = "default" ∧
    fs' = fs ++ savedWrites env shared t sl d ci entries := by
  intro entries
  induction entries with
  | nil =>
      intro fs ci acc s' a fs' h
      unfold FileSaverNode.postGo at h
      simp only [Except.ok.injEq, Prod.mk.injEq] at h
      obtain ⟨hs, ha, hfs⟩ := h
      refine ⟨?_, ha.symm, ?_⟩
      · rw [← hs]; simp
      · rw [← hfs]; simp [savedWrites]
  | cons e rest ih =>
      intro fs ci acc s' a fs' h
      unfold FileSaverNode.postGo at h
      dsimp only at h
      split at h
      · exact absurd h (by simp)
      · rename_i p fs2 hsave
        obtain ⟨hp, hfs2⟩ := saveLayer_ok_eq hsave
        obtain ⟨h1, h2, h3⟩ := ih h
        refine ⟨?_, h2, ?_⟩
        · rw [h1, hp]
          simp [saveMetadata]
        · rw [h3, hfs2, hp]
          simp [savedWrites, saveMetadata]

/-- Inversion of the saver's loop on failure: the shared state is
returned exactly as it was (no `savedFiles` assignment happens), and the
log only grows (the files saved before the failure stay on disk). -/
theorem postGo_error {env : Env} {shared : SharedState} {t sl d : String} :
    ∀ {entries : List LayerEntry} {fs : FS} {ci : Nat} {acc : List String}
      {e : String} {s' : SharedState} {fs' : FS},
    FileSaverNode.postGo env shared t sl d fs ci entries acc = .error (e, s', fs') →
    s' = shared ∧ fs.IsPrefix fs' := by
  intro entries
  induction entries with
  | nil =>
      intro fs ci acc e s' fs' h
      exact absurd h (by simp [FileSaverNode.postGo])
  | cons x rest ih =>
      intro fs ci acc e s' fs' h
      unfold FileSaverNode.postGo at h
      dsimp only at h
      split at h
      · rename_i herr
        simp only [Except.error.injEq, Prod.mk.injEq] at h
        obtain ⟨_, hs, hfs⟩ := h
        exact ⟨hs.symm, hfs ▸ List.prefix_refl fs⟩
      · rename_i p fs2 hsave
        obtain ⟨h1, h2⟩ := ih h
        obtain ⟨_, hfs2⟩ := saveLayer_ok_eq hsave
        refine ⟨h1, List.IsPrefix.trans ?_ h2⟩
        rw [hfs2]
        exact List.prefix_append fs _

/-- Images of a `filterMap` are a sublist of the images of the source
list, whenever the two projections agree on kept elements. -/
theorem map_filterMap_sublist {α β γ : Type} (f : α → Option β) (g : β → γ) (hf : α → γ)
    (H : ∀ a b, f a = some b → g b = hf a) :
    ∀ l : List α, ((l.filterMap f).map g).Sublist (l.map hf)
  | [] => by simp
  | a :: l => by
      cases hfa : f a with
      | none =>
          simpa [List.filterMap_cons, hfa] using
            List.Sublist.cons (hf a) (map_filterMap_sublist f g hf H l)
      | some b =>
          simpa [List.filterMap_cons, hfa, H a b hfa] using
            List.Sublist.cons₂ (hf a) (map_filterMap_sublist f g hf H l)

/-- A level appears among the saver's prepared entries exactly when some
config row with that level has a truthy slot. -/
theorem mem_prep_levels (shared : SharedState) (k : Nat) :
    k ∈ (FileSaverNode.prep shared).map LayerEntry.level ↔
      ∃ c ∈ layerConfigs, jsTruthyOpt (shared.layers.get c.key) = true ∧ c.level = k := by
  simp only [FileSaverNode.prep, List.mem_map, List.mem_filterMap]
  constructor
  · rintro ⟨e, ⟨c, hc, hfc⟩, hlvl⟩
    refine ⟨c, hc, ?_, ?_⟩
    · cases hslot : shared.layers.get c.key with
      | none => rw [hslot] at hfc; exact absurd hfc (by simp)
      | some content =>
          rw [hslot] at hfc
          by_cases hemp : content = ""
          · simp [hemp] at hfc
          · simp [jsTruthyOpt, hemp]
    · cases hslot : shared.layers.get c.key with
      | none => rw [hslot] at hfc; exact absurd hfc (by simp)
      | some content =>
          rw [hslot] at hfc
          by_cases hemp : content = ""
          · simp [hemp] at hfc
          · simp only [hemp, if_neg, ite_false] at hfc
            rw [← hlvl]
            cases hfc
            rfl
  · rintro ⟨c, hc, htruthy, hlvl⟩
    cases hslot : shared.layers.get c.key with
    | none => rw [hslot] at htruthy; exact absurd htruthy (by simp [jsTruthyOpt])
    | some content =>
        rw [hslot] at htruthy
        have hemp : content ≠ "" := by simpa [jsTruthyOpt] using htruthy
        exact ⟨{ level := c.level, name := c.name, content := content },
          ⟨c, hc, by rw [hslot]; simp [hemp]⟩, hlvl⟩

/-! ## Claim theorems -/

/-- C8: in the constructed routing table, all four labels returned by the
input-classification node (the `label` of each input type) map to the
content-extraction node — the diamond converges on one extraction node. -/
theorem routing_branch_convergence :
    ∀ t : InputType, successor NodeId.inputDetector t.label = some NodeId.contentExtractor := by
  intro t
  cases t <;> rfl

/-- C6: the input-classification execute phase is total and returns its
label by priority on the trimmed input: `url` when the scheme matches and
the platform URL parser accepts it, else `pdf` on a `.pdf` suffix, else
`image` on an image suffix, else `text` — an input matching no known type
is classified as text, never an error. -/
theorem input_classification_priority (env : Env) (input : String) :
    (InputDetectorNode.exec env input = .url ↔
      InputDetectorNode.isUrl env (jsTrim input) = true) ∧
    (InputDetectorNode.exec env input = .pdf ↔
      InputDetectorNode.isUrl env (jsTrim input) = false ∧
        InputDetectorNode.isPdfFile (jsTrim input) = true) ∧
    (InputDetectorNode.exec env input = .image ↔
      InputDetectorNode.isUrl env (jsTrim input) = false ∧
        InputDetectorNode.isPdfFile (jsTrim input) = false ∧
        InputDetectorNode.isImageFile (jsTrim input) = true) ∧
    (InputDetectorNode.exec env input = .text ↔
      InputDetectorNode.isUrl env (jsTrim input) = false ∧
        InputDetectorNode.isPdfFile (jsTrim input) = false ∧
        InputDetectorNode.isImageFile (jsTrim input) = false) ∧
    InputDetectorNode.isUrl env (jsTrim input) =
      (InputDetectorNode.matchesHttpScheme (jsTrim input) &&
        (env.urlParse (jsTrim input)).isSome) := by
  have hu : InputDetectorNode.isUrl env (jsTrim input) =
      (InputDetectorNode.matchesHttpScheme (jsTrim input) &&
        (env.urlParse (jsTrim input)).isSome) := by
    unfold InputDetectorNode.isUrl
    by_cases h : InputDetectorNode.matchesHttpScheme (jsTrim input) <;> simp [h]
  refine ⟨?_, ?_, ?_, ?_, hu⟩ <;>
  · unfold InputDetectorNode.exec
    by_cases h1 : InputDetectorNode.isUrl env (jsTrim input) <;>
      by_cases h2 : InputDetectorNode.isPdfFile (jsTrim input) <;>
        by_cases h3 : InputDetectorNode.isImageFile (jsTrim input) <;>
          simp [h1, h2, h3]

/-- C3 counterexample: on the end-to-end scenario string the extraction
word count is 9, not 8 as the spec sentence states (the string has nine
whitespace-separated words). -/
theorem extraction_wordCount_not_eight :
    (extractFromText "Hello world. This is a short note about focus.").metadata.wordCount ≠ 8 := by
  decide

/-- C3 amended: plain-text extraction returns the content unchanged for
every input, and on the scenario string the metadata word count is 9. -/
theorem extraction_scenario_wordCount :
    (∀ s : String, (extractFromText s).content = s) ∧
    (extractFromText "Hello world. This is a short note about focus.").metadata.wordCount = 9 := by
  exact ⟨fun s => rfl, by decide⟩

/-- C10: when the detected type tag is undefined, the extractor's prepare
substitutes `text` and its execute performs the plain-text pass-through on
the raw input (which never fails), so extraction works without the
classifier having run. -/
theorem extractor_defaults_to_text (env : Env) (shared : SharedState)
    (h : shared.input.type = none) :
    ContentExtractorNode.prep shared = { raw := shared.input.raw, type := .text } ∧
    ContentExtractorNode.exec env (ContentExtractorNode.prep shared) =
      .ok (extractFromText shared.input.raw) := by
  constructor
  · simp [ContentExtractorNode.prep, h]
  · simp [ContentExtractorNode.prep, ContentExtractorNode.exec, h]

/-- C10 witness: the concrete initial state for input "hello" has no type
tag, and the extractor prepares and extracts it as plain text. -/
theorem extractor_defaults_to_text_witness :
    ContentExtractorNode.prep (createInitialState "hello" none) =
      { raw := (createInitialState "hello" none).input.raw, type := .text } ∧
    ContentExtractorNode.exec witnessEnv (ContentExtractorNode.prep (createInitialState "hello" none)) =
      .ok (extractFromText (createInitialState "hello" none).input.raw) :=
  extractor_defaults_to_text witnessEnv (createInitialState "hello" none) rfl

/-- C2: contrary to the claim, no node of the constructed note flow
declares the configured retry policy — every construction site in
`createNoteFlow` passes no constructor arguments, so the engine default of
a single attempt with no wait governs every execute phase, while the
processing configuration (`defaultConfig.processing`, 3 attempts, 2-second
wait) is never wired in. -/
theorem noteFlow_declares_no_retry_policy :
    (noteFlowNodes.all fun d => decide (d.ctorRetry = none)) = true ∧
    (noteFlowNodes.all fun d => decide (effectiveRetry d = { maxRetries := 1, wait := 0 })) = true ∧
    defaultConfig.processing.maxRetries = 3 ∧
    defaultConfig.processing.retryWait = 2 := by
  refine ⟨by decide, by decide, rfl, rfl⟩

/-- The saver's loop writes one file per entry. -/
theorem savedWrites_length (env : Env) (shared : SharedState) (t sl d : String) :
    ∀ (ci : Nat) (entries : List LayerEntry),
      (savedWrites env shared t sl d ci entries).length = entries.length
  | _, [] => rfl
  | ci, _ :: rest => by
      simp [savedWrites, savedWrites_length env shared t sl d (ci + 1) rest]

/-- The file written for the i-th entry of the saver's loop. -/
theorem savedWrites_get (env : Env) (shared : SharedState) (t sl d : String) :
    ∀ (ci : Nat) (entries : List LayerEntry) (i : Nat),
      (savedWrites env shared t sl d ci entries)[i]? =
        (entries[i]?).map (fun e =>
          (env.pathJoin d (generateLayerFilename t sl e.level),
            generateFrontmatter (saveMetadata shared env (ci + i) e) ++
              ("# L" ++ toString e.level ++ ": " ++ shared.metadata.title ++ " - " ++
                e.name ++ "\n\n") ++ e.content))
  | _, [], _ => by simp [savedWrites]
  | ci, e :: rest, 0 => by simp [savedWrites]
  | ci, e :: rest, i + 1 => by
      have := savedWrites_get env shared t sl d (ci + 1) rest i
      simpa [savedWrites, Nat.add_assoc, Nat.add_comm 1 i] using this

/-- The prepared levels are a sublist of the configured level sequence. -/
theorem prep_levels_sublist (shared : SharedState) :
    ((FileSaverNode.prep shared).map LayerEntry.level).Sublist [1, 2, 3, 4, 5] := by
  have H : ∀ (c : LayerConfig) (e : LayerEntry),
      (match shared.layers.get c.key with
       | some content => if content = "" then none
           else some { level := c.level, name := c.name, content := content }
       | none => none) = some e → LayerEntry.level e = LayerConfig.level c := by
    intro c e hce
    cases hslot : shared.layers.get c.key with
    | none => rw [hslot] at hce; exact absurd hce (by simp)
    | some content =>
        rw [hslot] at hce
        by_cases hemp : content = ""
        · simp [hemp] at hce
        · simp only [hemp, if_neg, ite_false] at hce
          cases hce
          rfl
  have h := map_filterMap_sublist _ LayerEntry.level LayerConfig.level H layerConfigs
  simpa [layerConfigs, FileSaverNode.prep] using h

/-- C1 counterexample: with all five layers populated and a filesystem
that rejects the third file, the batch save fails after two successful
writes; the failure is surfaced as an error, yet at that moment the
shared saved-path list is still empty — contrary to the claim, it does
not contain the two already-saved paths (they are only on disk). -/
theorem fileSaver_partial_failure_counterexample :
    failedSaveResult =
      .error ("ENOSPC: no space left on device", sBatch, fsBeforeFailure) ∧
    fsBeforeFailure.map Prod.fst =
      ["./data/notes/20240115-143022_note_level-1.md",
       "./data/notes/20240115-143022_note_level-2.md"] ∧
    sBatch.output.savedFiles = [] ∧
    ¬ "./data/notes/20240115-143022_note_level-1.md" ∈ sBatch.output.savedFiles := by
  refine ⟨rfl, by decide, rfl, by decide⟩

/-- C1 amended: if an individual persistence call inside the batch save
fails partway through, the failure is propagated (finalize returns the
error, it is not swallowed), the shared state at that moment is exactly
the state before finalize — in particular `output.savedFiles` does not
yet contain the paths of the artifacts saved before the failure — and
those artifacts are visible only as an extension of the filesystem log. -/
theorem fileSaver_partial_failure (env : Env) (shared : SharedState)
    (entries : List LayerEntry) (results : List String) (fs : FS)
    (e : String) (s' : SharedState) (fs' : FS)
    (h : FileSaverNode.post env shared entries results fs = .error (e, s', fs')) :
    s' = shared ∧ fs.IsPrefix fs' :=
  postGo_error h

/-- C1 witness: the amended theorem applied to the concrete failing save. -/
theorem fileSaver_partial_failure_witness :
    sBatch = sBatch ∧ ([] : FS).IsPrefix fsBeforeFailure :=
  fileSaver_partial_failure envFail3 sBatch (FileSaverNode.prep sBatch)
    ((FileSaverNode.prep sBatch).map FileSaverNode.exec) []
    "ENOSPC: no space left on device" sBatch fsBeforeFailure rfl

/-- C5: the batch finalize produces exactly one artifact per non-empty
(truthy) layer slot — the prepared entries carry strictly ascending layer
numbers and a level appears iff its slot is populated and non-empty —
and on success it writes the artifact paths into shared state in that
ascending prepared order, one file written per entry; the result is a
function of the prepared items only, independent of the per-item execute
results and hence of the order in which item execution ran. -/
theorem batch_save_order (env : Env) (shared : SharedState)
    (results : List String) (fs : FS) (s' : SharedState) (a : String) (fs' : FS)
    (h : FileSaverNode.post env shared (FileSaverNode.prep shared) results fs =
      .ok (s', a, fs')) :
    ((FileSaverNode.prep shared).map LayerEntry.level).Pairwise (· < ·) ∧
    (∀ c ∈ layerConfigs,
      (c.level ∈ (FileSaverNode.prep shared).map LayerEntry.level ↔
        jsTruthyOpt (shared.layers.get c.key) = true)) ∧
    s'.output.savedFiles = (FileSaverNode.prep shared).map (fun e =>
      env.pathJoin shared.output.directory
        (generateLayerFilename (jsOrOpt shared.output.timestamp "")
          (jsOrOpt shared.output.slug "untitled") e.level)) ∧
    fs'.length = fs.length + (FileSaverNode.prep shared).length ∧
    (∀ results2 : List String,
      FileSaverNode.post env shared (FileSaverNode.prep shared) results2 fs =
        FileSaverNode.post env shared (FileSaverNode.prep shared) results fs) := by
  obtain ⟨hs, _, hfs⟩ := postGo_ok h
  have hinj : ∀ c ∈ layerConfigs, ∀ c' ∈ layerConfigs, c'.level = c.level → c' = c := by
    decide
  refine ⟨?_, fun c hc => mem_prep_levels shared c.level |>.trans ?_, ?_, ?_, fun _ => rfl⟩
  · exact List.Pairwise.sublist (prep_levels_sublist shared) (by decide)
  · constructor
    · rintro ⟨c', hc', htruthy, hlvl⟩
      rw [hinj c hc c' hc' hlvl] at htruthy
      exact htruthy
    · intro htruthy
      exact ⟨c, hc, htruthy, rfl⟩
  · rw [hs]
    simp
  · rw [hfs]
    simp [savedWrites_length]

/-- C5 witness: the order theorem applied to the concrete successful
batch save of all five layers. -/
theorem batch_save_order_witness :
    ((FileSaverNode.prep sBatch).map LayerEntry.level).Pairwise (· < ·) ∧
    (∀ c ∈ layerConfigs,
      (c.level ∈ (FileSaverNode.prep sBatch).map LayerEntry.level ↔
        jsTruthyOpt (sBatch.layers.get c.key) = true)) ∧
    sAfterSave.output.savedFiles = (FileSaverNode.prep sBatch).map (fun e =>
      witnessEnv.pathJoin sBatch.output.directory
        (generateLayerFilename (jsOrOpt sBatch.output.timestamp "")
          (jsOrOpt sBatch.output.slug "untitled") e.level)) ∧
    fsAfterSave.length = ([] : FS).length + (FileSaverNode.prep sBatch).length ∧
    (∀ results2 : List String,
      FileSaverNode.post witnessEnv sBatch (FileSaverNode.prep sBatch) results2 [] =
        FileSaverNode.post witnessEnv sBatch (FileSaverNode.prep sBatch)
          ((FileSaverNode.prep sBatch).map FileSaverNode.exec) []) :=
  batch_save_order witnessEnv sBatch ((FileSaverNode.prep sBatch).map FileSaverNode.exec)
    [] sAfterSave aAfterSave fsAfterSave rfl

/-- C9: every artifact the batch save writes is one file per prepared
layer entry: its filename is `<timestamp>_<slug>_level-<n>.md` joined to
the output directory, and its content is the YAML metadata header —
title, layer number, layer name, source type, creation time, word count,
and the author exactly when present — followed by the human-readable
heading `# L<n>: <title> - <layer name>` and then the layer's raw text. -/
theorem artifact_name_and_layout (env : Env) (shared : SharedState)
    (results : List String) (fs : FS) (s' : SharedState) (a : String) (fs' : FS)
    (h : FileSaverNode.post env shared (FileSaverNode.prep shared) results fs =
      .ok (s', a, fs'))
    (i : Nat) (e : LayerEntry) (he : (FileSaverNode.prep shared)[i]? = some e) :
    fs'[fs.length + i]? = some
      (env.pathJoin shared.output.directory
        (jsOrOpt shared.output.timestamp "" ++ "_" ++ jsOrOpt shared.output.slug "untitled" ++
          "_level-" ++ toString e.level ++ ".md"),
       String.intercalate "\n"
         (["---",
           "title: \"" ++ escapeYamlString shared.metadata.title ++ "\"",
           "layer: " ++ toString e.level,
           "layer_name: \"" ++ e.name ++ "\"",
           "source: \"" ++ shared.metadata.sourceType ++ "\"",
           "created: \"" ++ env.nowISO i ++ "\"",
           "word_count: " ++ toString (countWords e.content)] ++
          (if jsTruthyOpt shared.metadata.author then
            ["author: \"" ++ escapeYamlString (shared.metadata.author.getD "") ++ "\""]
           else []) ++
          ["---", ""]) ++
        ("# L" ++ toString e.level ++ ": " ++ shared.metadata.title ++ " - " ++
          e.name ++ "\n\n") ++ e.content) := by
  obtain ⟨_, _, hfs⟩ := postGo_ok h
  rw [hfs]
  rw [List.getElem?_append_right (by omega)]
  simp only [Nat.add_sub_cancel_left]
  rw [savedWrites_get, he]
  simp [saveMetadata, generateFrontmatter, generateLayerFilename]

/-- C9 witness: the layout theorem applied to the first artifact of the
concrete successful batch save. -/
theorem artifact_name_and_layout_witness :
    fsAfterSave[([] : FS).length + 0]? = some
      (witnessEnv.pathJoin sBatch.output.directory
        (jsOrOpt sBatch.output.timestamp "" ++ "_" ++ jsOrOpt sBatch.output.slug "untitled" ++
          "_level-" ++ toString (1 : Nat) ++ ".md"),
       String.intercalate "\n"
         (["---",
           "title: \"" ++ escapeYamlString sBatch.metadata.title ++ "\"",
           "layer: " ++ toString (1 : Nat),
           "layer_name: \"" ++ "Initial Capture" ++ "\"",
           "source: \"" ++ sBatch.metadata.sourceType ++ "\"",
           "created: \"" ++ witnessEnv.nowISO 0 ++ "\"",
           "word_count: " ++ toString (countWords "one")] ++
          (if jsTruthyOpt sBatch.metadata.author then
            ["author: \"" ++ escapeYamlString (sBatch.metadata.author.getD "") ++ "\""]
           else []) ++
          ["---", ""]) ++
        ("# L" ++ toString (1 : Nat) ++ ": " ++ sBatch.metadata.title ++ " - " ++
          "Initial Capture" ++ "\n\n") ++ "one") :=
  artifact_name_and_layout witnessEnv sBatch
    ((FileSaverNode.prep sBatch).map FileSaverNode.exec) [] sAfterSave aAfterSave fsAfterSave
    rfl 0 { level := 1, name := "Initial Capture", content := "one" } (by decide)

/-- C7: for an unresolvable URL input — URL syntax matches and parses,
but the fetch fails — classification returns the label `url`, the
extraction execute phase fails deterministically (hence on every retry
attempt with the same wrapped error), and the run aborts at the
content-extraction node with the failure wrapped and propagated: the
state at the abort has the type tag `url` set, every layer slot still
unassigned, the saved-path list empty, and no file written. -/
theorem unresolvable_url_aborts (env : Env) (u : String) (opts : Option InitOptions)
    (msg : String)
    (hscheme : InputDetectorNode.matchesHttpScheme (jsTrim u) = true)
    (hparse : (env.urlParse (jsTrim u)).isSome = true)
    (hfetch : env.fetchUrl u = Except.error msg) :
    InputDetectorNode.exec env u = .url ∧
    (∀ n : Nat,
      attemptExec (ContentExtractorNode.exec env { raw := u, type := .url }) n =
        .error ("Failed to fetch URL content: " ++ msg)) ∧
    runNoteFlow env (createInitialState u opts) =
      .error { node := .contentExtractor
               message := "Failed to fetch URL content: " ++ msg
               state := { createInitialState u opts with
                 input := { (createInitialState u opts).input with type := some .url } }
               fs := [] } ∧
    ({ createInitialState u opts with
        input := { (createInitialState u opts).input with type := some .url } } :
          SharedState).layers =
      { layer1 := none, layer2 := none, layer3 := none, layer4 := none, layer5 := none } ∧
    ({ createInitialState u opts with
        input := { (createInitialState u opts).input with type := some .url } } :
          SharedState).output.savedFiles = [] := by
  have hdet : InputDetectorNode.exec env u = .url := by
    simp [InputDetectorNode.exec, InputDetectorNode.isUrl, hscheme, hparse]
  have hexec : ContentExtractorNode.exec env { raw := u, type := .url } =
      .error ("Failed to fetch URL content: " ++ msg) := by
    simp [ContentExtractorNode.exec, extractFromURL, hfetch]
  refine ⟨hdet, fun n => hexec ▸ attemptExec_error _ n, ?_, by simp [createInitialState], rfl⟩
  unfold runNoteFlow
  rw [show (32 : Nat) = 31 + 1 from rfl, runFlow_succ]
  simp only [stepNode, InputDetectorNode.prep, nodeMaxRetries, nodeCtorRetry, attemptExec,
    Option.getD, InputDetectorNode.post, createInitialState, hdet, InputType.label, successor]
  rw [runFlow_succ]
  simp only [stepNode, ContentExtractorNode.prep, nodeMaxRetries, nodeCtorRetry, attemptExec,
    Option.getD, hexec]

/-- C7 witness: the abort theorem applied to a concrete unresolvable URL
under an environment whose network is down. -/
theorem unresolvable_url_aborts_witness :
    InputDetectorNode.exec envUrlFail "https://no-such-host.invalid/a" = .url ∧
    (∀ n : Nat,
      attemptExec (ContentExtractorNode.exec envUrlFail
          { raw := "https://no-such-host.invalid/a", type := .url }) n =
        .error ("Failed to fetch URL content: " ++ "offline")) ∧
    runNoteFlow envUrlFail (createInitialState "https://no-such-host.invalid/a" none) =
      .error { node := .contentExtractor
               message := "Failed to fetch URL content: " ++ "offline"
               state := { createInitialState "https://no-such-host.invalid/a" none with
                 input := { (createInitialState "https://no-such-host.invalid/a" none).input with
                   type := some .url } }
               fs := [] } ∧
    ({ createInitialState "https://no-such-host.invalid/a" none with
        input := { (createInitialState "https://no-such-host.invalid/a" none).input with
          type := some .url } } : SharedState).layers =
      { layer1 := none, layer2 := none, layer3 := none, layer4 := none, layer5 := none } ∧
    ({ createInitialState "https://no-such-host.invalid/a" none with
        input := { (createInitialState "https://no-such-host.invalid/a" none).input with
          type := some .url } } : SharedState).output.savedFiles = [] :=
  unresolvable_url_aborts envUrlFail "https://no-such-host.invalid/a" none "offline"
    (by decide) (by decide) rfl


set_option maxHeartbeats 4000000 in
/-- C4: across any single successful run of the flow from an initial
state, every shared-state field has at most one writer and is never
cleared or overwritten once set: along the nine-state trace (initial
state plus one state per node) each field holds its initial empty value
on a prefix and a single value thereafter.  Each layer slot k is
assigned exactly once, at the layer-k node's step (trace position k+2),
it is non-empty (populated) from then on, and in every trace state a
populated layer k implies layer k-1 is already populated. -/
theorem shared_state_write_once (env : Env) (u : String) (opts : Option InitOptions)
    (sF : SharedState) (fsF : FS) (tr : List SharedState)
    (h : runNoteFlow env (createInitialState u opts) = .ok (sF, fsF, tr)) :
    ∃ (t : InputType) (md : SourceMetadata) (cr : String) (ts sl : String)
      (r1 r2 r3 r4 r5 : String) (paths : List String),
      tr.map (fun s => s.input.raw) = List.replicate 9 u ∧
      tr.map (fun s => s.input.type) = none :: List.replicate 8 (some t) ∧
      tr.map (fun s => s.input.focusArea) =
        List.replicate 9 (opts.bind fun o => o.focusArea) ∧
      tr.map (fun s => s.input.outputFormat) =
        List.replicate 9 (opts.bind fun o => o.outputFormat) ∧
      tr.map (fun s => s.metadata) =
        List.replicate 2 (⟨"", none, none, "", 0⟩ : SourceMetadata) ++
          List.replicate 7 md ∧
      tr.map (fun s => s.content.raw) = List.replicate 2 "" ++ List.replicate 7 cr ∧
      tr.map (fun s => s.content.sections) = List.replicate 9 none ∧
      tr.map (fun s => s.output.directory) =
        List.replicate 9 (jsOrOpt (opts.bind fun o => o.outputDirectory) "./data/notes") ∧
      tr.map (fun s => s.output.timestamp) =
        List.replicate 2 none ++ List.replicate 7 (some ts) ∧
      tr.map (fun s => s.output.slug) =
        List.replicate 2 none ++ List.replicate 7 (some sl) ∧
      tr.map (fun s => s.output.savedFiles) = List.replicate 8 [] ++ [paths] ∧
      tr.map (fun s => s.layers.layer1) =
        List.replicate 3 none ++ List.replicate 6 (some r1) ∧
      tr.map (fun s => s.layers.layer2) =
        List.replicate 4 none ++ List.replicate 5 (some r2) ∧
      tr.map (fun s => s.layers.layer3) =
        List.replicate 5 none ++ List.replicate 4 (some r3) ∧
      tr.map (fun s => s.layers.layer4) =
        List.replicate 6 none ++ List.replicate 3 (some r4) ∧
      tr.map (fun s => s.layers.layer5) =
        List.replicate 7 none ++ List.replicate 2 (some r5) ∧
      (∀ s ∈ tr, s.layers.layer2.isSome = true → s.layers.layer1.isSome = true) ∧
      (∀ s ∈ tr, s.layers.layer3.isSome = true → s.layers.layer2.isSome = true) ∧
      (∀ s ∈ tr, s.layers.layer4.isSome = true → s.layers.layer3.isSome = true) ∧
      (∀ s ∈ tr, s.layers.layer5.isSome = true → s.layers.layer4.isSome = true) := by
  unfold runNoteFlow at h
  rw [show (32 : Nat) = 31 + 1 from rfl, runFlow_succ] at h
  simp only [stepNode, InputDetectorNode.prep, nodeMaxRetries, nodeCtorRetry, defaultNodeRetry,
    Option.getD, attemptExec, InputDetectorNode.post, createInitialState] at h
  generalize ht : InputDetectorNode.exec env u = t at h
  have hsucc : successor .inputDetector t.label = some .contentExtractor := by
    cases t <;> rfl
  simp only [hsucc] at h
  rw [runFlow_succ] at h
  simp only [stepNode, ContentExtractorNode.prep, nodeMaxRetries, nodeCtorRetry,
    defaultNodeRetry, Option.getD, attemptExec] at h
  split at h
  · simp at h
  rename_i s1' action1 fs1' heq
  split at heq
  · simp at heq
  rename_i r hexec
  simp only [Except.ok.injEq, Prod.mk.injEq] at heq
  obtain ⟨h1, h2, h3⟩ := heq
  subst h1 h2 h3
  simp only [ContentExtractorNode.post, successor] at h
  rw [runFlow_succ] at h
  simp only [stepNode, Layer1CaptureNode.prep, nodeMaxRetries, nodeCtorRetry,
    defaultNodeRetry, Option.getD, attemptExec] at h
  split at h
  · simp at h
  rename_i s2' action2 fs2' heq
  split at heq
  · simp at heq
  rename_i r1 hl1
  simp only [Except.ok.injEq, Prod.mk.injEq] at heq
  obtain ⟨h1, h2, h3⟩ := heq
  subst h1 h2 h3
  simp only [Layer1CaptureNode.post, successor] at h
  rw [runFlow_succ] at h
  simp only [stepNode, Layer2BoldNode.prep, nodeMaxRetries, nodeCtorRetry,
    defaultNodeRetry, Option.getD, attemptExec] at h
  split at h
  · simp at h
  rename_i s3' action3 fs3' heq
  split at heq
  · simp at heq
  rename_i r2 hl2
  simp only [Except.ok.injEq, Prod.mk.injEq] at heq
  obtain ⟨h1, h2, h3⟩ := heq
  subst h1 h2 h3
  simp only [Layer2BoldNode.post, successor] at h
  rw [runFlow_succ] at h
  simp only [stepNode, Layer3DistillNode.prep, nodeMaxRetries, nodeCtorRetry,
    defaultNodeRetry, Option.getD, attemptExec] at h
  split at h
  · simp at h
  rename_i s4' action4 fs4' heq
  split at heq
  · simp at heq
  rename_i r3 hl3
  simp only [Except.ok.injEq, Prod.mk.injEq] at heq
  obtain ⟨h1, h2, h3⟩ := heq
  subst h1 h2 h3
  simp only [Layer3DistillNode.post, successor] at h
  rw [runFlow_succ] at h
  simp only [stepNode, Layer4SummaryNode.prep, nodeMaxRetries, nodeCtorRetry,
    defaultNodeRetry, Option.getD, attemptExec] at h
  split at h
  · simp at h
  rename_i s5' action5 fs5' heq
  split at heq
  · simp at heq
  rename_i r4 hl4
  simp only [Except.ok.injEq, Prod.mk.injEq] at heq
  obtain ⟨h1, h2, h3⟩ := heq
  subst h1 h2 h3
  simp only [Layer4SummaryNode.post, successor] at h
  rw [runFlow_succ] at h
  simp only [stepNode, Layer5CreativeNode.prep, nodeMaxRetries, nodeCtorRetry,
    defaultNodeRetry, Option.getD, attemptExec] at h
  split at h
  · simp at h
  rename_i s6' action6 fs6' heq
  split at heq
  · simp at heq
  rename_i r5 hl5
  simp only [Except.ok.injEq, Prod.mk.injEq] at heq
  obtain ⟨h1, h2, h3⟩ := heq
  subst h1 h2 h3
  simp only [Layer5CreativeNode.post, successor] at h
  rw [runFlow_succ] at h
  simp only [stepNode] at h
  split at h
  · simp at h
  rename_i s7' action7 fs7' heq
  split at heq
  · simp at heq
  rename_i s8 a8 fs8 hpost
  simp only [Except.ok.injEq, Prod.mk.injEq] at heq
  obtain ⟨h1, h2, h3⟩ := heq
  subst h1 h2 h3
  unfold FileSaverNode.post at hpost
  obtain ⟨hs8, ha8, hfs8⟩ := postGo_ok hpost
  subst ha8
  subst hs8
  simp only [successor] at h
  simp only [Except.ok.injEq, Prod.mk.injEq] at h
  obtain ⟨hF1, hF2, hF3⟩ := h
  subst hF3
  refine ⟨t, _, _, _, _, r1, r2, r3, r4, r5, _,
    rfl, rfl, rfl, rfl, rfl, rfl, rfl, rfl, rfl, rfl, rfl, rfl, rfl, rfl, rfl, rfl,
    ?_, ?_, ?_, ?_⟩ <;>
  · intro s hs
    simp only [List.mem_append, List.mem_singleton] at hs
    rcases hs with ((((((((hs | hs) | hs) | hs) | hs) | hs) | hs) | hs) | hs) <;>
      subst hs <;> simp
/-- C4 witness: the write-once theorem applied to the concrete successful
run of the flow on plain-text input "hello". -/
theorem shared_state_write_once_witness :
    ∃ (t : InputType) (md : SourceMetadata) (cr : String) (ts sl : String)
      (r1 r2 r3 r4 r5 : String) (paths : List String),
      trW.map (fun s => s.input.raw) = List.replicate 9 "hello" ∧
      trW.map (fun s => s.input.type) = none :: List.replicate 8 (some t) ∧
      trW.map (fun s => s.input.focusArea) =
        List.replicate 9 ((none : Option InitOptions).bind fun o => o.focusArea) ∧
      trW.map (fun s => s.input.outputFormat) =
        List.replicate 9 ((none : Option InitOptions).bind fun o => o.outputFormat) ∧
      trW.map (fun s => s.metadata) =
        List.replicate 2 (⟨"", none, none, "", 0⟩ : SourceMetadata) ++
          List.replicate 7 md ∧
      trW.map (fun s => s.content.raw) = List.replicate 2 "" ++ List.replicate 7 cr ∧
      trW.map (fun s => s.content.sections) = List.replicate 9 none ∧
      trW.map (fun s => s.output.directory) =
        List.replicate 9 (jsOrOpt ((none : Option InitOptions).bind fun o => o.outputDirectory)
          "./data/notes") ∧
      trW.map (fun s => s.output.timestamp) =
        List.replicate 2 none ++ List.replicate 7 (some ts) ∧
      trW.map (fun s => s.output.slug) =
        List.replicate 2 none ++ List.replicate 7 (some sl) ∧
      trW.map (fun s => s.output.savedFiles) = List.replicate 8 [] ++ [paths] ∧
      trW.map (fun s => s.layers.layer1) =
        List.replicate 3 none ++ List.replicate 6 (some r1) ∧
      trW.map (fun s => s.layers.layer2) =
        List.replicate 4 none ++ List.replicate 5 (some r2) ∧
      trW.map (fun s => s.layers.layer3) =
        List.replicate 5 none ++ List.replicate 4 (some r3) ∧
      trW.map (fun s => s.layers.layer4) =
        List.replicate 6 none ++ List.replicate 3 (some r4) ∧
      trW.map (fun s => s.layers.layer5) =
        List.replicate 7 none ++ List.replicate 2 (some r5) ∧
      (∀ s ∈ trW, s.layers.layer2.isSome = true → s.layers.layer1.isSome = true) ∧
      (∀ s ∈ trW, s.layers.layer3.isSome = true → s.layers.layer2.isSome = true) ∧
      (∀ s ∈ trW, s.layers.layer4.isSome = true → s.layers.layer3.isSome = true) ∧
      (∀ s ∈ trW, s.layers.layer5.isSome = true → s.layers.layer4.isSome = true) :=
  shared_state_write_once witnessEnv "hello" none sFW fsFW trW rfl

end NoteTaker
